import Mathlib

/-!
Verification of the cobalt-connector session core.

The definitions below are a shallow embedding of the TypeScript sources:
`src/machines/session.machine.ts` (the xstate session machine) and the
NestJS `AppService` (session registry, trigger mapper, dialogue-actor
response parsing, and the per-session output stream).

Modelling conventions:
* TS strings are Lean `String`; optional / possibly-undefined values are
  `Option`; the JS truthiness of strings (empty string is falsy) is made
  explicit through `strTruthy` and `jsOrS`.
* `uuidv4()` and `new Date().toISOString()` are modelled by a fresh-supply
  record `Gen`: each append consumes `Gen.nextId` as the message id and
  stamps `Gen.now` as the timestamp.
* xstate actor completions (`xstate.done.actor.*` / `xstate.error.actor.*`
  events) are explicit `MEvent` constructors; guard predicates read the
  completed call's output metadata exactly as the source guards do.
* The transient `botActive.decision` state resolves its `always` chain
  against the event that entered it, so `machineStep` composes the entry
  step with `decisionNext` and the machine never rests in `decision`.
-/

namespace Cobalt

/-- Optional routing flags carried in bot-response / backend metadata.
Fields are `Option Bool` because every flag is optional in the TS types;
a missing flag reads as `false` through `!!` in the source. -/
structure MetaFlags where
  liveAgentRequested : Option Bool := none
  startSurvey : Option Bool := none
  liveAgentIssue : Option Bool := none
  emailRequested : Option Bool := none
  chatEnded : Option Bool := none
  emailSent : Option Bool := none
deriving DecidableEq, Repr

/-- `!!m?.f` for an optional metadata record and an optional flag. -/
def mFlag (m : Option MetaFlags) (f : MetaFlags → Option Bool) : Bool :=
  match m with
  | none => false
  | some mm => (f mm).getD false

/-- Message roles, `'user' | 'bot' | 'agent'`. -/
inductive Role where
  | user
  | bot
  | agent
deriving DecidableEq, Repr

/-- Opaque rich-content payload (`any[]` in the source). -/
abbrev Rich := List String

/-- One chat message (`ChatMessage`).  `content` is `Option String`
because the source casts a possibly-undefined extraction to `string`. -/
structure ChatMessage where
  id : Nat
  role : Role
  content : Option String
  timestamp : Nat
  richContent : Option Rich := none
  metadata : Option MetaFlags := none
deriving DecidableEq, Repr

/-- The machine context (`ChatContext`). -/
structure ChatContext where
  sessionId : String
  userId : String
  messages : List ChatMessage
  agentId : Option String := none
  error : Option String := none
  surveyData : Option String := none
  email : Option String := none
deriving DecidableEq, Repr

/-- Output of the dialogue actor `sendToDialogflow`:
`{content, metadata, richContent}`. -/
structure DialogOutput where
  content : String
  metadata : MetaFlags
  richContent : Option Rich := none
deriving DecidableEq, Repr

/-- Output of `connectToLiveAgent` as observed by the `onDone` guard:
the source reads `event.output?.metadata?.liveAgentIssue`. -/
structure ActorOutput where
  metadata : Option MetaFlags := none
deriving DecidableEq, Repr

/-- Machine events: the `ChatEvent` union plus the xstate actor-completion
events delivered to the invoking states. -/
inductive MEvent where
  | userMessage (content : String)
  | botResponse (content : String) (metadata : Option MetaFlags) (richContent : Option Rich)
  | agentConnected (agentId : String)
  | agentMessage (content : String)
  | agentEndedChat
  | userEndedChat
  | submitSurvey (data : String)
  | systemError (message : String)
  | liveAgentRequested
  | liveAgentIssue
  | emailTranscriptRequested
  | emailProvided (email : String)
  | emailValidated (email : String)
  | emailInvalid (message : String)
  | doneDialogflow (output : DialogOutput)
  | errorDialogflow (message : String)
  | doneConnectAgent (output : Option ActorOutput)
  | errorConnectAgent (message : String)
  | doneSendEmail
  | errorSendEmail
deriving DecidableEq, Repr

/-- Machine states.  The transient `botActive.decision` pseudo-state is
resolved inside `machineStep` (see `decisionNext`) and therefore has no
resting constructor. -/
inductive SState where
  | idle
  | botActiveProcessing
  | botActiveInputReceived
  | handover
  | agentActiveConnected
  | survey
  | emailRequested
  | emailReceived
  | sendingEmail
  | closed
  | failure
deriving DecidableEq, Repr

/-- Fresh-supply state standing in for `uuidv4()` and the capture-time
clock: `nextId` is the next fresh message id, `now` the current instant. -/
structure Gen where
  nextId : Nat
  now : Nat
deriving DecidableEq, Repr

/-- JS truthiness of an optional string: `undefined` and `''` are falsy. -/
def strTruthy : Option String → Bool
  | none => false
  | some s => !(s == "")

/-- JS `a || b` on optional strings (empty string is falsy). -/
def jsOrS (a b : Option String) : Option String :=
  if strTruthy a then a else b

/-- JS `a || b` for values whose only falsy case is `undefined`
(arrays and objects are always truthy). -/
def jsOrO {α : Type} (a b : Option α) : Option α :=
  match a with
  | some x => some x
  | none => b

/-- `o || ''` : force an optional string, empty when absent or empty. -/
def strGetD (o : Option String) : String :=
  match o with
  | none => ""
  | some s => s

/-- The TS `event.type` string of each event (xstate completion events use
their `xstate.done.actor.` / `xstate.error.actor.` prefixed names). -/
def eventTypeName : MEvent → String
  | .userMessage _ => "USER_MESSAGE"
  | .botResponse _ _ _ => "BOT_RESPONSE"
  | .agentConnected _ => "AGENT_CONNECTED"
  | .agentMessage _ => "AGENT_MESSAGE"
  | .agentEndedChat => "AGENT_ENDED_CHAT"
  | .userEndedChat => "USER_ENDED_CHAT"
  | .submitSurvey _ => "SUBMIT_SURVEY"
  | .systemError _ => "SYSTEM_ERROR"
  | .liveAgentRequested => "LIVE_AGENT_REQUESTED"
  | .liveAgentIssue => "LIVE_AGENT_ISSUE"
  | .emailTranscriptRequested => "EMAIL_TRANSCRIPT_REQUESTED"
  | .emailProvided _ => "EMAIL_PROVIDED"
  | .emailValidated _ => "EMAIL_VALIDATED"
  | .emailInvalid _ => "EMAIL_INVALID"
  | .doneDialogflow _ => "xstate.done.actor.0.CobaltChatbot.botActive.processing"
  | .errorDialogflow _ => "xstate.error.actor.0.CobaltChatbot.botActive.processing"
  | .doneConnectAgent _ => "xstate.done.actor.0.CobaltChatbot.handover"
  | .errorConnectAgent _ => "xstate.error.actor.0.CobaltChatbot.handover"
  | .doneSendEmail => "xstate.done.actor.0.CobaltChatbot.sendingEmail"
  | .errorSendEmail => "xstate.error.actor.0.CobaltChatbot.sendingEmail"

/-- `(event as any).content` -/
def eventContentF : MEvent → Option String
  | .userMessage c => some c
  | .botResponse c _ _ => some c
  | .agentMessage c => some c
  | _ => none

/-- `(event as any).message` (the `SYSTEM_ERROR` and `EMAIL_INVALID`
events carry a `message` field; xstate error events carry `error`, not
`message`). -/
def eventMessageF : MEvent → Option String
  | .systemError m => some m
  | .emailInvalid m => some m
  | _ => none

/-- `(event as any).richContent` -/
def eventRichF : MEvent → Option Rich
  | .botResponse _ _ r => r
  | _ => none

/-- `(event as any).metadata` -/
def eventMetaF : MEvent → Option MetaFlags
  | .botResponse _ m _ => m
  | _ => none

/-- `(event as any).email` -/
def eventEmailF : MEvent → Option String
  | .emailProvided e => some e
  | .emailValidated e => some e
  | _ => none

/-- `event.output?.metadata` of an event whose type starts with
`xstate.done.actor.` (structurally: exactly the three done-events); every
other event yields `none`, which makes the guard's second branch read
`false`, exactly as `event.type.startsWith('xstate.done.actor.') && ...`
does in the source. -/
def doneActorOutputMeta : MEvent → Option MetaFlags
  | .doneDialogflow o => some o.metadata
  | .doneConnectAgent o => o.bind (fun a => a.metadata)
  | .doneSendEmail => none
  | _ => none

/-- Guard `isLiveAgentRequested`. -/
def isLiveAgentRequestedG (e : MEvent) : Bool :=
  (match e with
   | .botResponse _ md _ => mFlag md (fun m => m.liveAgentRequested)
   | _ => false)
  || mFlag (doneActorOutputMeta e) (fun m => m.liveAgentRequested)

/-- Guard `isSurveyRequested`. -/
def isSurveyRequestedG (e : MEvent) : Bool :=
  (match e with
   | .botResponse _ md _ => mFlag md (fun m => m.startSurvey)
   | _ => false)
  || mFlag (doneActorOutputMeta e) (fun m => m.startSurvey)

/-- Guard `isEmailTranscriptRequested`. -/
def isEmailTranscriptRequestedG (e : MEvent) : Bool :=
  (match e with
   | .botResponse _ md _ => mFlag md (fun m => m.emailRequested)
   | _ => false)
  || mFlag (doneActorOutputMeta e) (fun m => m.emailRequested)

/-- Guard `isLiveAgentIssue` (only inspects completed-call output). -/
def isLiveAgentIssueG (e : MEvent) : Bool :=
  mFlag (doneActorOutputMeta e) (fun m => m.liveAgentIssue)

/-- Optional explicit parameters of the `addMessageToContext` action. -/
structure MsgParams where
  type : Option String := none
  content : Option String := none
  richContent : Option Rich := none
  metadata : Option MetaFlags := none
deriving DecidableEq, Repr

/-- The `addMessageToContext` action of `session.machine.ts`.  Returns the
new message list together with the advanced fresh-supply; the supply is
consumed only when a message is actually appended (`uuidv4()` is only
called inside the appending branches). -/
def addMessageToContext (ctx : ChatContext) (e : MEvent) (params : Option MsgParams)
    (g : Gen) : List ChatMessage × Gen :=
  let eventType := strGetD (jsOrS (params.bind (fun p => p.type)) (some (eventTypeName e)))
  let content := jsOrS (params.bind (fun p => p.content))
    (jsOrS (eventContentF e) (eventMessageF e))
  let rich := jsOrO (params.bind (fun p => p.richContent)) (eventRichF e)
  let md := jsOrO (params.bind (fun p => p.metadata)) (eventMetaF e)
  let g' : Gen := { g with nextId := g.nextId + 1 }
  if eventType == "USER_MESSAGE" then
    let m : ChatMessage := { id := g.nextId, role := .user, content := content, timestamp := g.now }
    (ctx.messages ++ [m], g')
  else if eventType == "BOT_RESPONSE" || eventType == "EMAIL_INVALID" then
    let m : ChatMessage := { id := g.nextId, role := .bot, content := content, timestamp := g.now, richContent := rich, metadata := md }
    (ctx.messages ++ [m], g')
  else if eventType == "AGENT_MESSAGE" then
    let m : ChatMessage := { id := g.nextId, role := .agent, content := content, timestamp := g.now }
    (ctx.messages ++ [m], g')
  else
    (ctx.messages, g)

/-- The `logError` action: copies the message only from a `SYSTEM_ERROR`
event and otherwise assigns `undefined`. -/
def logErrorVal (e : MEvent) : Option String :=
  match e with
  | .systemError m => some m
  | _ => none

/-- The `always` guard chain of the transient `botActive.decision` state,
evaluated against the event that entered it (source order: live-agent,
then survey, then email-transcript, then `inputReceived`). -/
def decisionNext (e : MEvent) : SState :=
  if isLiveAgentRequestedG e then .handover
  else if isSurveyRequestedG e then .survey
  else if isEmailTranscriptRequestedG e then .sendingEmail
  else .botActiveInputReceived

/-- The `BOT_RESPONSE` guard chain shared by `idle`, the `botActive`
level and `failure` (email-transcript to the `emailTranscript` compound,
whose initial child is `emailRequested`). -/
def botResponseRouteTop (e : MEvent) : SState :=
  if isEmailTranscriptRequestedG e then .emailRequested
  else if isLiveAgentRequestedG e then .handover
  else if isSurveyRequestedG e then .survey
  else .botActiveInputReceived

/-- The `BOT_RESPONSE` guard chain of `botActive.inputReceived`
(email-transcript goes straight to `sendingEmail`; the final alternative
has no target, so the state stays `inputReceived`). -/
def botResponseRouteInput (e : MEvent) : SState :=
  if isEmailTranscriptRequestedG e then .sendingEmail
  else if isLiveAgentRequestedG e then .handover
  else if isSurveyRequestedG e then .survey
  else .botActiveInputReceived

/-- One serialized step of the session machine: state, context and fresh
supply in, same out.  Unhandled events leave everything unchanged. -/
def machineStep (st : SState) (ctx : ChatContext) (e : MEvent) (g : Gen) :
    SState × ChatContext × Gen :=
  let stay : SState × ChatContext × Gen := (st, ctx, g)
  let withAdd : SState → Option MsgParams → SState × ChatContext × Gen :=
    fun tgt params =>
      let p := addMessageToContext ctx e params g
      (tgt, { ctx with messages := p.1 }, p.2)
  match st with
  | .idle =>
    match e with
    | .userMessage _ => withAdd .botActiveProcessing none
    | .botResponse _ _ _ => withAdd (botResponseRouteTop e) none
    | .agentConnected a => (.agentActiveConnected, { ctx with agentId := some a }, g)
    | .agentMessage _ => withAdd .agentActiveConnected none
    | .liveAgentRequested => (.handover, ctx, g)
    | .emailTranscriptRequested => (.emailRequested, ctx, g)
    | .userEndedChat => (.closed, ctx, g)
    | _ => stay
  | .botActiveProcessing =>
    match e with
    | .doneDialogflow o =>
      withAdd (decisionNext e)
        (some { type := some "BOT_RESPONSE", content := some o.content,
                richContent := o.richContent, metadata := some o.metadata })
    | .errorDialogflow _ => (.failure, ctx, g)
    | .botResponse _ _ _ => withAdd (botResponseRouteTop e) none
    | .agentConnected a => (.agentActiveConnected, { ctx with agentId := some a }, g)
    | .agentMessage _ => withAdd .agentActiveConnected none
    | .liveAgentRequested => (.handover, ctx, g)
    | .emailTranscriptRequested => (.emailRequested, ctx, g)
    | .userEndedChat => (.closed, ctx, g)
    | _ => stay
  | .botActiveInputReceived =>
    match e with
    | .userMessage _ => withAdd .botActiveProcessing none
    | .botResponse _ _ _ => withAdd (botResponseRouteInput e) none
    | .userEndedChat => (.closed, ctx, g)
    | .agentConnected a => (.agentActiveConnected, { ctx with agentId := some a }, g)
    | .agentMessage _ => withAdd .agentActiveConnected none
    | .liveAgentRequested => (.handover, ctx, g)
    | .emailTranscriptRequested => (.emailRequested, ctx, g)
    | _ => stay
  | .handover =>
    match e with
    | .liveAgentIssue => (.botActiveInputReceived, ctx, g)
    | .doneConnectAgent _ =>
      ((if isLiveAgentIssueG e then .botActiveInputReceived else .agentActiveConnected : SState),
        ctx, g)
    | .errorConnectAgent _ =>
      (.botActiveInputReceived, { ctx with error := logErrorVal e }, g)
    | _ => stay
  | .agentActiveConnected =>
    match e with
    | .userMessage _ => withAdd .agentActiveConnected none
    | .agentMessage _ => withAdd .agentActiveConnected none
    | .agentEndedChat => (.survey, ctx, g)
    | .userEndedChat => (.closed, ctx, g)
    | .liveAgentIssue => (.botActiveInputReceived, ctx, g)
    | _ => stay
  | .survey =>
    match e with
    | .submitSurvey d => (.closed, { ctx with surveyData := some d }, g)
    | .userEndedChat => (.closed, ctx, g)
    | .botResponse _ _ _ => withAdd .survey none
    | _ => stay
  | .emailRequested =>
    match e with
    | .emailProvided em => (.emailReceived, { ctx with email := some em }, g)
    | .userMessage c => (.emailReceived, { ctx with email := some c }, g)
    | .emailValidated em => (.sendingEmail, { ctx with email := some em }, g)
    | .emailInvalid _ => withAdd .emailRequested none
    | .botResponse _ _ _ => withAdd .emailRequested none
    | .userEndedChat => (.closed, ctx, g)
    | _ => stay
  | .emailReceived =>
    match e with
    | .emailValidated em => (.sendingEmail, { ctx with email := some em }, g)
    | .emailInvalid _ => withAdd .emailRequested none
    | .botResponse _ _ _ => withAdd .emailReceived none
    | .userEndedChat => (.closed, ctx, g)
    | _ => stay
  | .sendingEmail =>
    match e with
    | .doneSendEmail => (.botActiveInputReceived, ctx, g)
    | .errorSendEmail => (.botActiveInputReceived, ctx, g)
    | _ => stay
  | .closed => stay
  | .failure =>
    match e with
    | .userMessage _ => (.botActiveProcessing, ctx, g)
    | .botResponse _ _ _ => withAdd (botResponseRouteTop e) none
    | _ => stay

/-- Input handed to the invoked `sendEmailTranscript` actor. -/
structure EmailInput where
  email : String
  sessionId : String
deriving DecidableEq, Repr

/-- The most recent user-role message:
`[...context.messages].reverse().find(m => m.role === 'user')`. -/
def lastUserMessage (ctx : ChatContext) : Option ChatMessage :=
  ctx.messages.reverse.find? (fun m => m.role == Role.user)

/-- The `input` function of the `sendingEmail` invoke:
`context.email || event.email`, else the last user message's content,
else the empty string. -/
def sendEmailInput (ctx : ChatContext) (e : MEvent) : EmailInput :=
  let em := jsOrS ctx.email (eventEmailF e)
  if strTruthy em then
    { email := strGetD em, sessionId := ctx.sessionId }
  else
    { email := strGetD (lastUserMessage ctx |>.bind (fun m => m.content)),
      sessionId := ctx.sessionId }

/-- The machine's creation-time input, `{ sessionId: string; userId?: string }`,
wrapped in `Option` because the context initializer reads `input?.sessionId`.
`sessionId` is itself `Option` to model a missing field on a loosely-typed
caller. -/
structure MachineInput where
  sessionId : Option String := none
  userId : Option String := none
deriving DecidableEq, Repr

/-- The machine's initial context:
`sessionId: input?.sessionId || 'FALLBACK_EMPTY'`, `userId: input?.userId || ''`,
empty message list.  Total, hence never throws. -/
def initialContext (input : Option MachineInput) : ChatContext :=
  { sessionId := strGetD (jsOrS (input.bind (fun i => i.sessionId)) (some "FALLBACK_EMPTY")),
    userId := strGetD (jsOrS (input.bind (fun i => i.userId)) (some "")),
    messages := [] }

/-! ### AppService embedding (session registry, trigger mapper, stream) -/

/-- What the per-session subscriber publishes for one non-user message:
`plainText` is the message content, `participant` its role.  The fresh
`messageId` stamped by `randomUUID()` at publish time carries no
information and is omitted. -/
structure Emit where
  plainText : Option String
  participant : Role
  richContent : Option Rich := none
deriving DecidableEq, Repr

/-- The stream payload built from a context message. -/
def emitOf (m : ChatMessage) : Emit :=
  { plainText := m.content, participant := m.role, richContent := m.richContent }

/-- Per-session publish bookkeeping: `lastMessageCount` mirrors
`SessionInfo.lastMessageCount`, `published` the ordered list of
`bot_message` events already pushed to the subscriber. -/
structure StreamState where
  lastMessageCount : Nat
  published : List Emit
deriving DecidableEq, Repr

/-- Stream state at session creation (`lastMessageCount: 0`). -/
def initStream : StreamState := { lastMessageCount := 0, published := [] }

/-- The new-message block of the `actor.subscribe` callback: when the
snapshot's message list is longer than `lastMessageCount`, publish every
newly appended non-user message in list order and record the new length;
otherwise do nothing. -/
def publishStep (s : StreamState) (msgs : List ChatMessage) : StreamState :=
  if s.lastMessageCount < msgs.length then
    { lastMessageCount := msgs.length,
      published := s.published ++
        ((msgs.drop s.lastMessageCount).filter (fun m => !(m.role == Role.user))).map emitOf }
  else s

/-- One list extends another by a (possibly empty) suffix. -/
def ListGrows {α : Type} (a b : List α) : Prop := ∃ t, b = a ++ t

/-- The session registry: the key set of the `sessions` map. -/
structure RegState where
  sessions : List String
deriving DecidableEq, Repr

/-- `getOrCreateSession`: return the existing entry, or create, register
and start a new Session Actor.  The boolean reports whether a new actor
was created. -/
def getOrCreateSession (rs : RegState) (sessionId : String) : RegState × Bool :=
  if sessionId ∈ rs.sessions then (rs, false)
  else ({ sessions := rs.sessions ++ [sessionId] }, true)

/-- An inbound trigger `{ type?, message? }` (extra fields are opaque). -/
structure TriggerPayload where
  type : Option String := none
  message : Option String := none
deriving DecidableEq, Repr

/-- The registry effect of `handleTrigger`: its first statement is
`this.getOrCreateSession(sessionId)`, before the payload is inspected at
all, so every trigger ensures a session exists. -/
def handleTriggerRegistry (rs : RegState) (sessionId : String)
    (_payload : TriggerPayload) : RegState × Bool :=
  getOrCreateSession rs sessionId

/-- One entry of `specialTriggerMap`. -/
structure SpecialTrigger where
  n8nUrlKey : Option String := none
  machineEvent : Option String := none
  meta : MetaFlags := {}
deriving DecidableEq, Repr

/-- The `specialTriggerMap` constant of the service. -/
def specialTriggerMap : String → Option SpecialTrigger
  | "__endchat__" =>
    some { n8nUrlKey := some "N8N_END_CHAT_URL", machineEvent := some "USER_ENDED_CHAT",
           meta := { chatEnded := some true } }
  | "__email_transcript__" =>
    some { n8nUrlKey := some "N8N_TRANSCRIPT_URL", meta := { emailSent := some true } }
  | "__greeting__" => some { n8nUrlKey := some "N8N_GREETING_URL" }
  | "SURVEY_SUBMITTED" =>
    some { n8nUrlKey := some "N8N_ANALYTICS_URL", machineEvent := some "SUBMIT_SURVEY" }
  | _ => none

/-- JS object spread of two metadata maps: keys present in `b` override
those of `a`. -/
def mergeMeta (a b : MetaFlags) : MetaFlags :=
  { liveAgentRequested := jsOrO b.liveAgentRequested a.liveAgentRequested,
    startSurvey := jsOrO b.startSurvey a.startSurvey,
    liveAgentIssue := jsOrO b.liveAgentIssue a.liveAgentIssue,
    emailRequested := jsOrO b.emailRequested a.emailRequested,
    chatEnded := jsOrO b.chatEnded a.chatEnded,
    emailSent := jsOrO b.emailSent a.emailSent }

/-- A workflow-backend (N8n) response body as read by the service. -/
structure N8nResponse where
  plainText : Option String := none
  text : Option String := none
  message : Option String := none
  richContent : Option Rich := none
  meta : Option MetaFlags := none
  escalate : Option Bool := none
deriving DecidableEq, Repr

/-- The machine event sent for a `specialTriggerMap` entry's
`machineEvent` name (only `USER_ENDED_CHAT` and `SUBMIT_SURVEY` occur in
the map; the survey payload is abstracted to the trigger's message
field). -/
def mEventOfName (n : String) (p : TriggerPayload) : Option MEvent :=
  if n == "USER_ENDED_CHAT" then some .userEndedChat
  else if n == "SUBMIT_SURVEY" then some (.submitSurvey (strGetD p.message))
  else none

/-- The fixed in-band escalation sentinel. -/
def escTag : String := "##ESCALATE##"

/-- `needle` is a segment starting at the head of `hay`. -/
def startsWithL : List Char → List Char → Bool
  | [], _ => true
  | _ :: _, [] => false
  | a :: as, b :: bs => a == b && startsWithL as bs

/-- JS `hay.includes(needle)` on character lists. -/
def containsL (tag : List Char) : List Char → Bool
  | [] => startsWithL tag []
  | c :: cs => startsWithL tag (c :: cs) || containsL tag cs

/-- JS `hay.replace(tag, '')` with a plain-string pattern: remove the
first occurrence of `tag` only. -/
def replaceFirstL (tag : List Char) : List Char → List Char
  | [] => []
  | c :: cs =>
    if startsWithL tag (c :: cs) then (c :: cs).drop tag.length
    else c :: replaceFirstL tag cs

/-- Whitespace for `trim` (the common JS whitespace characters). -/
def isWsChar (c : Char) : Bool :=
  c == ' ' || c == '\t' || c == '\n' || c == '\r'

/-- JS `s.trim()` on character lists. -/
def trimL (l : List Char) : List Char :=
  ((l.dropWhile isWsChar).reverse.dropWhile isWsChar).reverse

/-- The escalation-tag check/strip applied to returned content:
`content.includes(tag)` then `content.replace(tag, '').trim()`; returns
the possibly rewritten content and whether the tag was found. -/
def stripEscalation (s : String) : String × Bool :=
  if containsL escTag.toList s.toList then
    (String.mk (trimL (replaceFirstL escTag.toList s.toList)), true)
  else (s, false)

/-- The `firstEntryJson` placeholder blanking applied after the strip. -/
def fejStr (s : String) : String := if s == "firstEntryJson" then "" else s

/-- A backend response value: `typeof response === 'string'`, a JSON
object, or `null` (the `callN8n` failure result; `typeof null` is
`'object'` in JS but every optional chain on it reads `undefined`). -/
inductive N8nRespValue where
  | strV (s : String)
  | objV (r : N8nResponse)
  | nullV
deriving DecidableEq, Repr

/-- Content / rich-content extraction of `sendToDialogflow`:
a string response is the content itself, otherwise
`response?.plainText || response?.text || response?.message || ''`. -/
def extractDialogContent : N8nRespValue → String × Option Rich
  | .strV s => (s, none)
  | .objV r => (strGetD (jsOrS r.plainText (jsOrS r.text r.message)), r.richContent)
  | .nullV => ("", none)

/-- `typeof response === 'object' ? !!response?.escalate ||
!!response?.meta?.liveAgentRequested : false`. -/
def explicitEscalateFlag : N8nRespValue → Bool
  | .objV r => r.escalate.getD false || mFlag r.meta (fun m => m.liveAgentRequested)
  | _ => false

/-- `typeof response === 'object' ? !!response?.meta?.chatEnded : false`. -/
def explicitSurveyFlag : N8nRespValue → Bool
  | .objV r => mFlag r.meta (fun m => m.chatEnded)
  | _ => false

/-- The body of the provided `sendToDialogflow` actor after the N8n call
returns: extract content, strip the escalation tag, blank the
`firstEntryJson` placeholder, and assemble the output metadata. -/
def parseDialogflow (v : N8nRespValue) : DialogOutput :=
  let cr := extractDialogContent v
  let pe := stripEscalation cr.1
  { content := fejStr pe.1,
    metadata := { liveAgentRequested := some (pe.2 || explicitEscalateFlag v),
                  startSurvey := some (explicitSurveyFlag v) },
    richContent := cr.2 }

/-- The machine events sent by the special-trigger branch of
`handleTrigger` for one resolved `specialTriggerMap` entry: when the URL
is configured and the backend call returned a non-null body, the bot
response (with merged metadata and the stripped text, unless it is the
`firstEntryJson` placeholder) is forwarded, preceded by
`LIVE_AGENT_REQUESTED` when the merged flag is set; afterwards the
entry's fixed `machineEvent` is always sent. -/
def specialTriggerEmits (t : SpecialTrigger) (urlSet : Bool)
    (resp : Option N8nResponse) (p : TriggerPayload) : List MEvent :=
  (if t.n8nUrlKey.isSome && urlSet then
    match resp with
    | none => []
    | some r =>
      let pe := stripEscalation (strGetD (jsOrS r.plainText r.text))
      if pe.1 == "firstEntryJson" then []
      else
        let laFlag := pe.2 || mFlag r.meta (fun m => m.liveAgentRequested)
          || r.escalate.getD false
        let merged0 :=
          match r.meta with
          | some m => mergeMeta t.meta m
          | none => t.meta
        let merged := { merged0 with liveAgentRequested := some laFlag }
        (if laFlag then [MEvent.liveAgentRequested] else [])
          ++ [MEvent.botResponse pe.1 (some merged) r.richContent]
   else [])
  ++ (match t.machineEvent with
      | some n => (mEventOfName n p).toList
      | none => [])

/-- Well-formedness of the fresh-id supply: every stored message id was
drawn from the supply (hence is below `nextId`) and ids are pairwise
distinct. -/
def MsgInv (ctx : ChatContext) (g : Gen) : Prop :=
  (∀ m ∈ ctx.messages, m.id < g.nextId) ∧ (ctx.messages.map (fun m => m.id)).Nodup

/-! ### Concrete fixtures used by counterexamples and witnesses -/

/-- A fresh context for session `s1`. -/
def ctx0 : ChatContext := { sessionId := "s1", userId := "", messages := [] }

/-- A fresh context that already carries a recorded error. -/
def ctxPrevErr : ChatContext :=
  { sessionId := "s1", userId := "", messages := [], error := some "previous" }

/-- A fresh context whose email field is set. -/
def ctxEmail : ChatContext :=
  { sessionId := "s1", userId := "", messages := [], email := some "a@b.c" }

/-- A fresh supply. -/
def gen0 : Gen := { nextId := 0, now := 100 }

/-- A dialogue output whose metadata sets both the live-agent and the
email-transcript flags. -/
def dialogOutBoth : DialogOutput :=
  { content := "pick one",
    metadata := { liveAgentRequested := some true, emailRequested := some true } }

/-- A dialogue output with no flags set. -/
def dialogOutNone : DialogOutput := { content := "plain answer", metadata := {} }

/-- A user message fixture. -/
def mU : ChatMessage := { id := 0, role := .user, content := some "hello", timestamp := 1 }

/-- A bot message fixture. -/
def mB : ChatMessage := { id := 1, role := .bot, content := some "hi there", timestamp := 2 }

/-- The `__endchat__` entry of `specialTriggerMap`. -/
def endChatTrigger : SpecialTrigger :=
  { n8nUrlKey := some "N8N_END_CHAT_URL", machineEvent := some "USER_ENDED_CHAT",
    meta := { chatEnded := some true } }

/-- An end-chat backend response whose metadata requests a survey. -/
def surveyResp : N8nResponse :=
  { plainText := some "Thanks! Please rate your chat.", meta := some { startSurvey := some true } }

/-- A connectivity-probe style trigger payload. -/
def probePayload : TriggerPayload := { message := some "__ping__" }

/-! ### Claim theorems -/

/-- Claim C10: creating the machine with a missing or empty-string
`sessionId` yields the initial context `sessionId = 'FALLBACK_EMPTY'`,
`userId` defaulting to the empty string and an empty message list; the
initializer is total, hence never throws. -/
theorem initial_context_fallback :
    initialContext none = { sessionId := "FALLBACK_EMPTY", userId := "", messages := [] } ∧
    (∀ u : Option String,
      (initialContext (some { sessionId := none, userId := u })).sessionId = "FALLBACK_EMPTY" ∧
      (initialContext (some { sessionId := some "", userId := u })).sessionId = "FALLBACK_EMPTY") ∧
    (∀ s : Option String,
      (initialContext (some { sessionId := s, userId := none })).userId = "" ∧
      (initialContext (some { sessionId := s, userId := some "" })).userId = "") ∧
    (∀ i : Option MachineInput, (initialContext i).messages = []) := by
  refine ⟨rfl, fun u => ⟨rfl, rfl⟩, fun s => ⟨rfl, ?_⟩, fun i => rfl⟩
  simp [initialContext, jsOrS, strTruthy, strGetD]

/-- Claim C1, counterexample: with both the email-transcript and the
live-agent flags set on the dialogue output, the decision chain goes to
`handover`, not to the email path, so email-transcript is not the
first-priority guard. -/
theorem decision_chain_email_first_counterexample :
    isEmailTranscriptRequestedG (.doneDialogflow dialogOutBoth) = true ∧
    (machineStep .botActiveProcessing ctx0 (.doneDialogflow dialogOutBoth) gen0).1 =
      SState.handover ∧
    SState.handover ≠ SState.sendingEmail ∧ SState.handover ≠ SState.emailRequested := by
  decide

/-- Claim C1 (amended): the `botActive.decision` guard chain is evaluated
in the fixed priority order live-agent, then survey, then
email-transcript (targeting `sendingEmail`), then
`botActive.inputReceived`; exactly one of the four alternatives is chosen
for every dialogue-actor completion reaching the decision point. -/
theorem decision_chain_priority (ctx : ChatContext) (g : Gen) (o : DialogOutput) :
    (o.metadata.liveAgentRequested.getD false = true →
      (machineStep .botActiveProcessing ctx (.doneDialogflow o) g).1 = SState.handover) ∧
    (o.metadata.liveAgentRequested.getD false = false →
      o.metadata.startSurvey.getD false = true →
      (machineStep .botActiveProcessing ctx (.doneDialogflow o) g).1 = SState.survey) ∧
    (o.metadata.liveAgentRequested.getD false = false →
      o.metadata.startSurvey.getD false = false →
      o.metadata.emailRequested.getD false = true →
      (machineStep .botActiveProcessing ctx (.doneDialogflow o) g).1 = SState.sendingEmail) ∧
    (o.metadata.liveAgentRequested.getD false = false →
      o.metadata.startSurvey.getD false = false →
      o.metadata.emailRequested.getD false = false →
      (machineStep .botActiveProcessing ctx (.doneDialogflow o) g).1 =
        SState.botActiveInputReceived) ∧
    ((machineStep .botActiveProcessing ctx (.doneDialogflow o) g).1 = SState.handover ∨
      (machineStep .botActiveProcessing ctx (.doneDialogflow o) g).1 = SState.survey ∨
      (machineStep .botActiveProcessing ctx (.doneDialogflow o) g).1 = SState.sendingEmail ∨
      (machineStep .botActiveProcessing ctx (.doneDialogflow o) g).1 =
        SState.botActiveInputReceived) := by
  have hst : (machineStep .botActiveProcessing ctx (.doneDialogflow o) g).1 =
      decisionNext (.doneDialogflow o) := rfl
  have hla : isLiveAgentRequestedG (.doneDialogflow o) =
      o.metadata.liveAgentRequested.getD false := by
    simp [isLiveAgentRequestedG, doneActorOutputMeta, mFlag]
  have hsv : isSurveyRequestedG (.doneDialogflow o) = o.metadata.startSurvey.getD false := by
    simp [isSurveyRequestedG, doneActorOutputMeta, mFlag]
  have hem : isEmailTranscriptRequestedG (.doneDialogflow o) =
      o.metadata.emailRequested.getD false := by
    simp [isEmailTranscriptRequestedG, doneActorOutputMeta, mFlag]
  rw [hst]
  unfold decisionNext
  rw [hla, hsv, hem]
  refine ⟨?_, ?_, ?_, ?_, ?_⟩
  · intro h1; simp [h1]
  · intro h1 h2; simp [h1, h2]
  · intro h1 h2 h3; simp [h1, h2, h3]
  · intro h1 h2 h3; simp [h1, h2, h3]
  · by_cases h1 : o.metadata.liveAgentRequested.getD false = true
    · simp [h1]
    · by_cases h2 : o.metadata.startSurvey.getD false = true
      · simp [h1, h2]
      · by_cases h3 : o.metadata.emailRequested.getD false = true
        · simp [h1, h2, h3]
        · simp [h1, h2, h3]

/-- Claim C1 witness: a flagless dialogue output falls through to
`botActive.inputReceived`. -/
theorem decision_chain_priority_witness :
    (machineStep .botActiveProcessing ctx0 (.doneDialogflow dialogOutNone) gen0).1 =
      SState.botActiveInputReceived :=
  (decision_chain_priority ctx0 gen0 dialogOutNone).2.2.2.1 (by decide) (by decide) (by decide)

/-- Claim C5: from `handover`, a completed connect call with the issue
flag routes to `botActive.inputReceived` and a plain completion routes to
`agentActive`; but on failure, although the machine does fall back to
`botActive.inputReceived`, the `logError` action copies the message only
from `SYSTEM_ERROR` events, so for the `xstate.error.actor` event it
assigns `undefined` — the error message is never recorded (a previously
recorded error is even cleared). -/
theorem handover_error_not_recorded :
    (machineStep .handover ctxPrevErr (.errorConnectAgent "connection refused") gen0).1 =
      SState.botActiveInputReceived ∧
    (machineStep .handover ctxPrevErr (.errorConnectAgent "connection refused") gen0).2.1.error =
      none ∧
    (machineStep .handover ctx0
      (.doneConnectAgent (some { metadata := some { liveAgentIssue := some true } })) gen0).1 =
      SState.botActiveInputReceived ∧
    (machineStep .handover ctx0 (.doneConnectAgent (some {})) gen0).1 =
      SState.agentActiveConnected ∧
    (machineStep .handover ctx0 (.doneConnectAgent none) gen0).1 =
      SState.agentActiveConnected := by
  decide

/-- Claim C7: from `emailTranscript.emailRequested`, `EMAIL_PROVIDED`
moves to `emailReceived` storing the email, a following `EMAIL_INVALID`
returns to `emailRequested` appending exactly one bot message carrying
the invalid-email explanation (and consuming exactly one fresh id), and a
subsequent `EMAIL_VALIDATED` moves to `sendingEmail`. -/
theorem email_invalid_keeps_requested (ctx : ChatContext) (g : Gen) (bad msg em : String) :
    machineStep .emailRequested ctx (.emailProvided bad) g =
      (SState.emailReceived, { ctx with email := some bad }, g) ∧
    (machineStep .emailReceived { ctx with email := some bad } (.emailInvalid msg) g).1 =
      SState.emailRequested ∧
    (machineStep .emailReceived { ctx with email := some bad } (.emailInvalid msg) g).2.1.messages =
      ctx.messages ++
        [{ id := g.nextId, role := Role.bot, content := some msg, timestamp := g.now }] ∧
    (machineStep .emailReceived { ctx with email := some bad } (.emailInvalid msg) g).2.2 =
      { g with nextId := g.nextId + 1 } ∧
    machineStep .emailRequested
        (machineStep .emailReceived { ctx with email := some bad } (.emailInvalid msg) g).2.1
        (.emailValidated em)
        (machineStep .emailReceived { ctx with email := some bad } (.emailInvalid msg) g).2.2 =
      (SState.sendingEmail,
        { (machineStep .emailReceived { ctx with email := some bad } (.emailInvalid msg) g).2.1
            with email := some em },
        (machineStep .emailReceived { ctx with email := some bad } (.emailInvalid msg) g).2.2) :=
  ⟨rfl, rfl, rfl, rfl, rfl⟩

/-- Claim C6: the `sendingEmail` invoke input uses the context email when
present, falls back to the most recent user message's content (or the
empty string when there is none) when neither the context nor the
entering event carries an email, always paired with the session id; both
completion and failure of the transcript call return to
`botActive.inputReceived`. -/
theorem sendingEmail_input_and_return (ctx : ChatContext) (e : MEvent) (g : Gen) :
    (∀ em : String, ctx.email = some em → em ≠ "" →
      sendEmailInput ctx e = { email := em, sessionId := ctx.sessionId }) ∧
    (strTruthy ctx.email = false → strTruthy (eventEmailF e) = false →
      sendEmailInput ctx e =
        { email := strGetD ((lastUserMessage ctx).bind (fun m => m.content)),
          sessionId := ctx.sessionId } ∧
      (lastUserMessage ctx = none →
        sendEmailInput ctx e = { email := "", sessionId := ctx.sessionId })) ∧
    machineStep .sendingEmail ctx .doneSendEmail g = (SState.botActiveInputReceived, ctx, g) ∧
    machineStep .sendingEmail ctx .errorSendEmail g = (SState.botActiveInputReceived, ctx, g) := by
  refine ⟨?_, ?_, rfl, rfl⟩
  · intro em hem hne
    have ht : strTruthy (jsOrS ctx.email (eventEmailF e)) = true := by
      simp [jsOrS, strTruthy, hem, hne]
    simp [sendEmailInput, ht, hem, jsOrS, strTruthy, hne, strGetD]
  · intro h1 h2
    have ht : strTruthy (jsOrS ctx.email (eventEmailF e)) = false := by
      simp [jsOrS, h1, h2]
    refine ⟨by simp [sendEmailInput, ht], fun hnone => by simp [sendEmailInput, ht, hnone, strGetD]⟩

/-- Claim C6 witness: with a stored context email the transcript actor is
dispatched with exactly that email and the session id. -/
theorem sendingEmail_input_and_return_witness :
    sendEmailInput ctxEmail .doneSendEmail = { email := "a@b.c", sessionId := "s1" } :=
  (sendingEmail_input_and_return ctxEmail .doneSendEmail gen0).1 "a@b.c" rfl (by decide)

/-- Helper: `addMessageToContext` either leaves the message list and the
supply untouched or appends exactly one message stamped with the current
fresh id and instant while advancing the supply. -/
theorem addMessage_spec (ctx : ChatContext) (e : MEvent) (p : Option MsgParams) (g : Gen) :
    addMessageToContext ctx e p g = (ctx.messages, g) ∨
    ∃ m : ChatMessage, addMessageToContext ctx e p g =
      (ctx.messages ++ [m], { g with nextId := g.nextId + 1 }) ∧
      m.id = g.nextId ∧ m.timestamp = g.now := by
  unfold addMessageToContext
  dsimp only
  split
  · exact Or.inr ⟨_, rfl, rfl, rfl⟩
  · split
    · exact Or.inr ⟨_, rfl, rfl, rfl⟩
    · split
      · exact Or.inr ⟨_, rfl, rfl, rfl⟩
      · exact Or.inl rfl

/-- Helper: the message-list effect of one machine step is either
nothing or a single append of a freshly stamped message. -/
theorem machineStep_msgs (st : SState) (ctx : ChatContext) (e : MEvent) (g : Gen) :
    ((machineStep st ctx e g).2.1.messages = ctx.messages ∧ (machineStep st ctx e g).2.2 = g) ∨
    ∃ m : ChatMessage, (machineStep st ctx e g).2.1.messages = ctx.messages ++ [m] ∧
      m.id = g.nextId ∧ m.timestamp = g.now ∧
      (machineStep st ctx e g).2.2 = { g with nextId := g.nextId + 1 } := by
  have key : ∀ (p : Option MsgParams),
      ((addMessageToContext ctx e p g).1 = ctx.messages ∧
        (addMessageToContext ctx e p g).2 = g) ∨
      ∃ m : ChatMessage, (addMessageToContext ctx e p g).1 = ctx.messages ++ [m] ∧
        m.id = g.nextId ∧ m.timestamp = g.now ∧
        (addMessageToContext ctx e p g).2 = { g with nextId := g.nextId + 1 } := by
    intro p
    rcases addMessage_spec ctx e p g with h | ⟨m, h, h1, h2⟩
    · exact Or.inl ⟨congrArg Prod.fst h, congrArg Prod.snd h⟩
    · exact Or.inr ⟨m, congrArg Prod.fst h, h1, h2, congrArg Prod.snd h⟩
  cases st <;> cases e <;>
    first
      | exact Or.inl ⟨rfl, rfl⟩
      | exact key none
      | exact key (some _)

/-- Claim C9: every machine step either leaves the context's message list
unchanged or appends exactly one message carrying the freshly generated
id and the capture-time instant; consequently stored message ids stay
pairwise distinct and previously appended messages are never modified or
removed. -/
theorem messages_append_only_fresh (st : SState) (ctx : ChatContext) (e : MEvent) (g : Gen) :
    (((machineStep st ctx e g).2.1.messages = ctx.messages ∧
        (machineStep st ctx e g).2.2 = g) ∨
      ∃ m : ChatMessage, (machineStep st ctx e g).2.1.messages = ctx.messages ++ [m] ∧
        m.id = g.nextId ∧ m.timestamp = g.now ∧
        (machineStep st ctx e g).2.2 = { g with nextId := g.nextId + 1 }) ∧
    (MsgInv ctx g → MsgInv (machineStep st ctx e g).2.1 (machineStep st ctx e g).2.2) := by
  refine ⟨machineStep_msgs st ctx e g, fun hinv => ?_⟩
  rcases machineStep_msgs st ctx e g with ⟨hm, hg⟩ | ⟨m, hm, hid, _ht, hg⟩
  · refine ⟨fun x hx => ?_, ?_⟩
    · rw [hm] at hx; rw [hg]; exact hinv.1 x hx
    · rw [hm]; exact hinv.2
  · refine ⟨fun x hx => ?_, ?_⟩
    · rw [hm] at hx
      rw [hg]
      show x.id < g.nextId + 1
      rcases List.mem_append.mp hx with h | h
      · exact Nat.lt_succ_of_lt (hinv.1 x h)
      · have hxm : x = m := by simpa using h
        subst hxm
        rw [hid]
        exact Nat.lt_succ_self _
    · rw [hm, List.map_append]
      refine List.nodup_append.mpr ⟨hinv.2, by simp, ?_⟩
      intro a ha hb
      rcases List.mem_map.mp ha with ⟨x, hx, hxa⟩
      have hb' : a = m.id := by simpa using hb
      have hlt := hinv.1 x hx
      rw [hxa] at hlt
      rw [hb', hid] at hlt
      exact absurd hlt (lt_irrefl _)

/-- Claim C9 witness: appending the first user message preserves the
fresh-id invariant on a concrete session. -/
theorem messages_append_only_fresh_witness :
    MsgInv (machineStep .idle ctx0 (.userMessage "hello") gen0).2.1
      (machineStep .idle ctx0 (.userMessage "hello") gen0).2.2 :=
  (messages_append_only_fresh .idle ctx0 (.userMessage "hello") gen0).2
    ⟨fun m hm => by simp [ctx0] at hm, by simp [ctx0]⟩

/-- Helper: one publish step only ever appends to the published list. -/
theorem publishStep_grows (s : StreamState) (msgs : List ChatMessage) :
    ListGrows s.published (publishStep s msgs).published := by
  unfold publishStep
  split
  · exact ⟨_, rfl⟩
  · exact ⟨[], (List.append_nil _).symm⟩

/-- Helper: a snapshot that has not grown past the recorded count changes
nothing, whatever its contents. -/
theorem publishStep_noop (s : StreamState) (msgs : List ChatMessage)
    (h : msgs.length ≤ s.lastMessageCount) : publishStep s msgs = s := by
  unfold publishStep
  rw [if_neg (by omega)]

/-- Helper: the publish invariant is preserved along one growing
snapshot. -/
theorem publishStep_inv (cur nxt : List ChatMessage) (s : StreamState)
    (hlen : s.lastMessageCount = cur.length)
    (hpub : s.published = (cur.filter (fun m => !(m.role == Role.user))).map emitOf)
    (hg : ListGrows cur nxt) :
    (publishStep s nxt).lastMessageCount = nxt.length ∧
    (publishStep s nxt).published =
      (nxt.filter (fun m => !(m.role == Role.user))).map emitOf := by
  obtain ⟨t, rfl⟩ := hg
  by_cases h : s.lastMessageCount < (cur ++ t).length
  · unfold publishStep
    rw [if_pos h]
    refine ⟨rfl, ?_⟩
    show s.published ++ _ = _
    rw [hpub, hlen, List.drop_left, List.filter_append, List.map_append]
  · have ht : t = [] := by
      rw [hlen, List.length_append] at h
      have : t.length = 0 := by omega
      exact List.eq_nil_of_length_eq_zero this
    subst ht
    rw [publishStep_noop s _ (by rw [hlen]; simp)]
    exact ⟨by simpa using hlen, by simpa using hpub⟩

/-- Helper: folding the subscriber over a growing chain of snapshots
keeps the recorded count equal to the latest snapshot's length and the
published list equal to the non-user messages of the latest snapshot, in
order. -/
theorem publishFold_inv (snaps : List (List ChatMessage)) :
    ∀ (cur : List ChatMessage) (s : StreamState),
      s.lastMessageCount = cur.length →
      s.published = (cur.filter (fun m => !(m.role == Role.user))).map emitOf →
      List.Chain' ListGrows (cur :: snaps) →
      (snaps.foldl publishStep s).lastMessageCount = (snaps.getLastD cur).length ∧
      (snaps.foldl publishStep s).published =
        ((snaps.getLastD cur).filter (fun m => !(m.role == Role.user))).map emitOf := by
  induction snaps with
  | nil =>
    intro cur s h1 h2 _
    exact ⟨by simpa [List.getLastD] using h1, by simpa [List.getLastD] using h2⟩
  | cons a rest ih =>
    intro cur s h1 h2 hch
    have hga : ListGrows cur a := (List.chain'_cons.mp hch).1
    have hch' : List.Chain' ListGrows (a :: rest) := (List.chain'_cons.mp hch).2
    have hstep := publishStep_inv cur a s h1 h2 hga
    have hrec := ih a (publishStep s a) hstep.1 hstep.2 hch'
    simpa only [List.foldl_cons, List.getLastD_cons] using hrec

/-- Claim C2: the published message count never decreases (the published
list only grows); a snapshot whose length has not grown publishes nothing
(detection is by message-list length, not content); and over any growing
chain of context snapshots starting from the empty list, the subscriber
publishes exactly the non-user messages of the final snapshot, in list
order — each exactly once, user messages never. -/
theorem stream_publishes_each_new_nonuser_once :
    (∀ (s : StreamState) (msgs : List ChatMessage),
      ListGrows s.published (publishStep s msgs).published) ∧
    (∀ (s : StreamState) (msgs : List ChatMessage),
      msgs.length ≤ s.lastMessageCount → publishStep s msgs = s) ∧
    (∀ snaps : List (List ChatMessage), List.Chain' ListGrows ([] :: snaps) →
      (snaps.foldl publishStep initStream).lastMessageCount = (snaps.getLastD []).length ∧
      (snaps.foldl publishStep initStream).published =
        ((snaps.getLastD []).filter (fun m => !(m.role == Role.user))).map emitOf) :=
  ⟨publishStep_grows, publishStep_noop,
    fun snaps hch => publishFold_inv snaps [] initStream rfl rfl hch⟩

/-- Claim C2 witness: after the snapshots `[]`, `[user]`,
`[user, bot]`, exactly the bot message has been published. -/
theorem stream_publishes_each_new_nonuser_once_witness :
    (([[mU], [mU, mB]] : List (List ChatMessage)).foldl publishStep initStream).published =
      [emitOf mB] := by
  have hch : List.Chain' ListGrows ([] :: [[mU], [mU, mB]]) :=
    List.chain'_cons.mpr ⟨⟨[mU], rfl⟩,
      List.chain'_cons.mpr ⟨⟨[mB], rfl⟩, List.chain'_singleton _⟩⟩
  have h := stream_publishes_each_new_nonuser_once.2.2 [[mU], [mU, mB]] hch
  rw [h.2]
  rfl

/-- Claim C3, counterexample: handling a quiescent trigger (a probe-style
payload) for an absent session id creates a session on the first call —
`handleTrigger` unconditionally begins with `getOrCreateSession` — so the
registry grows from size 0 to size 1 and an actor is instantiated,
contradicting the claimed no-instantiation / unchanged-size behaviour. -/
theorem quiescent_trigger_creates_session_counterexample :
    (RegState.mk []).sessions.length = 0 ∧
    (handleTriggerRegistry { sessions := [] } "s7" probePayload).2 = true ∧
    (handleTriggerRegistry (handleTriggerRegistry { sessions := [] } "s7" probePayload).1 "s7"
        probePayload).1.sessions.length = 1 := by
  decide

/-- Claim C3 (amended): every trigger — quiescent ones included — ensures
a session exists: for an id already registered nothing is created and the
registry is unchanged; for an absent id the first call registers exactly
that id and creates an actor, and an immediately repeated call creates
nothing and leaves the registry unchanged. -/
theorem handleTrigger_registry_create_once (rs : RegState) (sid : String)
    (p q : TriggerPayload) :
    (sid ∈ rs.sessions → handleTriggerRegistry rs sid p = (rs, false)) ∧
    (sid ∉ rs.sessions →
      (handleTriggerRegistry rs sid p).1.sessions = rs.sessions ++ [sid] ∧
      (handleTriggerRegistry rs sid p).2 = true) ∧
    handleTriggerRegistry (handleTriggerRegistry rs sid p).1 sid q =
      ((handleTriggerRegistry rs sid p).1, false) := by
  refine ⟨fun h => ?_, fun h => ?_, ?_⟩
  · simp [handleTriggerRegistry, getOrCreateSession, h]
  · simp [handleTriggerRegistry, getOrCreateSession, h]
  · by_cases h : sid ∈ rs.sessions
    · simp [handleTriggerRegistry, getOrCreateSession, h]
    · simp [handleTriggerRegistry, getOrCreateSession, h]

/-- Claim C3 witness: creating session `s7` in an empty registry. -/
theorem handleTrigger_registry_create_once_witness :
    (handleTriggerRegistry { sessions := [] } "s7" probePayload).1.sessions = [] ++ ["s7"] ∧
    (handleTriggerRegistry { sessions := [] } "s7" probePayload).2 = true :=
  (handleTrigger_registry_create_once { sessions := [] } "s7" probePayload probePayload).2.1
    (by decide)

/-- Claim C4, counterexample: for the `__endchat__` special trigger, the
mapper sends the entry's fixed `USER_ENDED_CHAT` machine event
unconditionally — here even though the backend response's metadata sets
the survey flag — contradicting the claimed prevent-close scan. -/
theorem endchat_survey_counterexample :
    specialTriggerMap "__endchat__" = some endChatTrigger ∧
    mFlag surveyResp.meta (fun m => m.startSurvey) = true ∧
    MEvent.userEndedChat ∈
      specialTriggerEmits endChatTrigger true (some surveyResp)
        { message := some "__endchat__" } := by
  decide

/-- Claim C4 (amended): the end-chat special trigger always emits
`USER_ENDED_CHAT` to the state machine — after forwarding the backend's
bot response, when there is one — regardless of any survey, live-agent or
email flags carried by the response metadata. -/
theorem endchat_always_emits_user_ended (urlSet : Bool) (resp : Option N8nResponse)
    (p : TriggerPayload) :
    MEvent.userEndedChat ∈ specialTriggerEmits endChatTrigger urlSet resp p := by
  unfold specialTriggerEmits
  exact List.mem_append_right _ (by simp [endChatTrigger, mEventOfName])

/-- Claim C8, counterexample: JS `replace` with a string pattern removes
only the first occurrence, so content consisting of the escalation
sentinel twice still contains — and displays — the sentinel after the
strip, contradicting the claim's universal "the marker is stripped from
the content". -/
theorem escalation_double_marker_counterexample :
    containsL escTag.toList ("##ESCALATE####ESCALATE##" : String).toList = true ∧
    containsL escTag.toList
      ((parseDialogflow (.strV "##ESCALATE####ESCALATE##")).content.toList) = true ∧
    (parseDialogflow (.strV "##ESCALATE####ESCALATE##")).content = "##ESCALATE##" := by
  decide

/-- Claim C8 (amended): content containing the escalation sentinel has
its first occurrence removed and the result whitespace-trimmed (a second
occurrence survives) and the live-agent-requested flag is set; content
without the sentinel passes through unchanged — apart from the literal
`firstEntryJson`, which is blanked — and the flag then only reflects the
backend's explicit escalate flags. -/
theorem escalation_marker_handling (v : N8nRespValue) :
    (containsL escTag.toList (extractDialogContent v).1.toList = true →
      (parseDialogflow v).metadata.liveAgentRequested = some true ∧
      (parseDialogflow v).content =
        fejStr (String.mk (trimL (replaceFirstL escTag.toList
          (extractDialogContent v).1.toList)))) ∧
    (containsL escTag.toList (extractDialogContent v).1.toList = false →
      (parseDialogflow v).content = fejStr (extractDialogContent v).1 ∧
      (parseDialogflow v).metadata.liveAgentRequested = some (explicitEscalateFlag v)) := by
  constructor
  · intro h
    simp only [String.toList] at h
    refine ⟨?_, ?_⟩ <;> simp [parseDialogflow, stripEscalation, h]
  · intro h
    simp only [String.toList] at h
    refine ⟨?_, ?_⟩ <;> simp [parseDialogflow, stripEscalation, h]

/-- Claim C8 witness: a single-sentinel content is stripped, trimmed and
flagged. -/
theorem escalation_marker_handling_witness :
    (parseDialogflow (.strV "hi ##ESCALATE##")).metadata.liveAgentRequested = some true ∧
    (parseDialogflow (.strV "hi ##ESCALATE##")).content =
      fejStr (String.mk (trimL (replaceFirstL escTag.toList
        (extractDialogContent (.strV "hi ##ESCALATE##")).1.toList))) :=
  (escalation_marker_handling (.strV "hi ##ESCALATE##")).1 (by decide)

end Cobalt
